import Mathlib

/-!
Shallow embedding of src/upnp-query.py, a UPnP gateway discovery and
introspection tool. Python strings are modelled as lists of characters,
network and XML inputs are explicit parameters, and Python exceptions that
the source leaves uncaught are modelled as explicit crash outcomes.
-/

namespace UpnpQuery

/-- Python strings are modelled as lists of characters. -/
abbrev Str := List Char

/-- Characters removed by Python str.strip (ASCII whitespace). -/
def pyIsSpace (c : Char) : Bool :=
  c = ' ' || c = '\t' || c = '\n' || c = '\r' || c = '\x0b' || c = '\x0c'

/-- Python str.strip: drop whitespace from both ends. -/
def pyStrip (s : Str) : Str :=
  ((s.dropWhile pyIsSpace).reverse.dropWhile pyIsSpace).reverse

/-- Python str.lower, restricted to ASCII as used on HTTP header lines. -/
def pyLower (s : Str) : Str := s.map Char.toLower

/-- Python str.startswith. -/
def pyStartsWith (s p : Str) : Bool := p.isPrefixOf s

/-- Split at the first occurrence of a character; none when it does not
occur. Python s.split(c, 1) is [s] in the none case and [a, b] in the
some (a, b) case. -/
def splitFirst (sep : Char) : Str → Option (Str × Str)
  | [] => none
  | c :: cs =>
    if c = sep then some ([], cs)
    else
      match splitFirst sep cs with
      | none => none
      | some (a, b) => some (c :: a, b)

/-- Python s.split on the two-character separator CR LF, as applied to the
discovery reply on line 86 of the source. -/
def splitCRLF : Str → List Str
  | [] => [[]]
  | '\r' :: '\n' :: rest => [] :: splitCRLF rest
  | c :: rest =>
    match splitCRLF rest with
    | [] => [[c]]
    | l :: ls => (c :: l) :: ls

/-- Outcome of the location-extraction loop (source lines 86-92).
indexError models the uncaught Python IndexError raised by
line.split(" ", 1)[1] when the matching line contains no space character. -/
inductive LocResult where
  | found (loc : Str)
  | missing
  | indexError
  deriving DecidableEq, Repr

/-- Header-name literal the loop searches for (lowercased comparison). -/
def locationHeader : Str := "location:".toList

/-- Loop body of source lines 86-92: the first line whose lowercase form
starts with "location:" yields line.split(" ", 1)[1].strip(); when no line
matches, the for-else branch reports a missing location header. -/
def extractLocationLines : List Str → LocResult
  | [] => .missing
  | line :: rest =>
    if pyStartsWith (pyLower line) locationHeader then
      match splitFirst ' ' line with
      | some (_, tail) => .found (pyStrip tail)
      | none => .indexError
    else extractLocationLines rest

/-- Location extraction from the raw discovery reply text:
response.split("\r\n") followed by the loop above. -/
def extractLocation (response : Str) : LocResult :=
  extractLocationLines (splitCRLF response)

theorem splitFirst_of_append (sep : Char) (a b : Str) (h : sep ∉ a) :
    splitFirst sep (a ++ sep :: b) = some (a, b) := by
  induction a with
  | nil => simp [splitFirst]
  | cons c cs ih =>
    have hc : c ≠ sep := fun hc => h (hc ▸ List.mem_cons_self c cs)
    have hcs : sep ∉ cs := fun hm => h (List.mem_cons_of_mem c hm)
    simp [splitFirst, hc, ih hcs]

theorem pyLower_append (a b : Str) : pyLower (a ++ b) = pyLower a ++ pyLower b :=
  List.map_append Char.toLower a b

theorem space_not_mem_of_pyLower_header (hname : Str)
    (h : pyLower hname = locationHeader) : ' ' ∉ hname := by
  intro hmem
  have h1 : Char.toLower ' ' ∈ pyLower hname := List.mem_map_of_mem Char.toLower hmem
  have h2 : Char.toLower ' ' = ' ' := by decide
  rw [h2, h] at h1
  revert h1
  decide

/-- C3: for every discovery reply text containing a line whose header name
is "Location:" in any letter case followed by a space and a URL, the
location extracted is that URL exactly, taken from the first such line,
trimmed of surrounding whitespace, independent of the header name's case. -/
theorem location_extraction_correct (response : Str) (pre suf : List Str)
    (hname url : Str)
    (hsplit : splitCRLF response = pre ++ (hname ++ ' ' :: url) :: suf)
    (hlower : pyLower hname = locationHeader)
    (hpre : ∀ l ∈ pre, pyStartsWith (pyLower l) locationHeader = false)
    (hurl : pyStrip url = url) :
    extractLocation response = .found url := by
  unfold extractLocation
  rw [hsplit]
  clear hsplit
  induction pre with
  | nil =>
    have hmatch : pyStartsWith (pyLower (hname ++ ' ' :: url)) locationHeader = true := by
      unfold pyStartsWith
      rw [pyLower_append, hlower]
      exact List.isPrefixOf_iff_prefix.mpr (List.prefix_append _ _)
    have hsp : splitFirst ' ' (hname ++ ' ' :: url) = some (hname, url) :=
      splitFirst_of_append ' ' hname url (space_not_mem_of_pyLower_header hname hlower)
    simp [extractLocationLines, hmatch, hsp, hurl]
  | cons p ps ih =>
    have hp : pyStartsWith (pyLower p) locationHeader = false :=
      hpre p (List.mem_cons_self p ps)
    have ihh : ∀ l ∈ ps, pyStartsWith (pyLower l) locationHeader = false :=
      fun l hl => hpre l (List.mem_cons_of_mem p hl)
    simpa [extractLocationLines, hp] using ih ihh

/-- Witness for C3 at a concrete discovery reply with mixed-case header. -/
theorem location_extraction_correct_witness :
    extractLocation ("HTTP/1.1 200 OK\r\nLoCaTiOn: http://192.168.1.1:5000/desc.xml\r\nSERVER: gw".toList)
      = .found ("http://192.168.1.1:5000/desc.xml".toList) :=
  location_extraction_correct _
    ["HTTP/1.1 200 OK".toList] ["SERVER: gw".toList]
    ("LoCaTiOn:".toList) ("http://192.168.1.1:5000/desc.xml".toList)
    (by decide) (by decide) (by decide) (by decide)

theorem extractLocationLines_missing (lines : List Str)
    (h : ∀ l ∈ lines, pyStartsWith (pyLower l) locationHeader = false) :
    extractLocationLines lines = .missing := by
  induction lines with
  | nil => rfl
  | cons l ls ih =>
    have hl : pyStartsWith (pyLower l) locationHeader = false :=
      h l (List.mem_cons_self l ls)
    have hrest := ih (fun x hx => h x (List.mem_cons_of_mem l hx))
    simp [extractLocationLines, hl, hrest]

/-- C7: a discovery reply with no line beginning with "location:"
case-insensitively yields the explicit missing-location outcome. -/
theorem missing_location_reported (response : Str)
    (h : ∀ l ∈ splitCRLF response, pyStartsWith (pyLower l) locationHeader = false) :
    extractLocation response = .missing :=
  extractLocationLines_missing (splitCRLF response) h

/-- Witness for C7 at a concrete reply lacking any location header. -/
theorem missing_location_reported_witness :
    extractLocation ("HTTP/1.1 200 OK\r\nSERVER: gw\r\n\r\n".toList) = .missing :=
  missing_location_reported _ (by decide)

/-- Parsed SCPD argument: the name and direction element texts read on
source lines 137-138. -/
structure ParsedArg where
  name : Str
  direction : Str
  deriving DecidableEq, Repr

/-- Parsed SCPD action: its name and its arguments in document order. -/
structure ParsedAction where
  name : Str
  args : List ParsedArg
  deriving DecidableEq, Repr

/-- Argument-classification loop of source lines 134-143: an argument whose
direction equals "out" is appended to arguments_out, and every other
argument, whatever its direction value, is appended to arguments_in.
Returns (arguments_in, arguments_out). -/
def classifyArguments : List ParsedArg → List Str × List Str
  | [] => ([], [])
  | g :: rest =>
    if g.direction = "out".toList
    then ((classifyArguments rest).1, g.name :: (classifyArguments rest).2)
    else (g.name :: (classifyArguments rest).1, (classifyArguments rest).2)

/-- Invocation guard of source line 145: the action name starts with "Get"
and the arguments_in list is empty. -/
def eligible (a : ParsedAction) : Bool :=
  pyStartsWith a.name ("Get".toList) && (classifyArguments a.args).1.length == 0

/-- Eligibility as the specification words it: the name starts with "Get"
and the action declares zero arguments whose direction is exactly "in".
Stated for comparison against the source's guard. -/
def specEligible (a : ParsedAction) : Bool :=
  pyStartsWith a.name ("Get".toList)
    && (a.args.filter (fun g => g.direction == "in".toList)).length == 0

/-- HTTP POST request assembled by perform_soap_request: URL, the two
headers, and the body. -/
structure SoapRequest where
  controlURL : Str
  serviceType : Str
  actionName : Str
  soapAction : Str
  contentType : Str
  body : Str
  deriving DecidableEq, Repr

/-- Fragment of the SOAP body f-string (source lines 49-56) before the
action name in the opening tag. -/
def soapPart1 : Str :=
  ("<?xml version=\"1.0\"?>\n    <s:Envelope xmlns:s=\"http://schemas.xmlsoap.org/soap/envelope/\" s:encodingStyle=\"http://schemas.xmlsoap.org/soap/encoding/\">\n        <s:Body>\n            <u:").toList

/-- Fragment between the action name and the service type. -/
def soapPart2 : Str := (" xmlns:u=\"").toList

/-- Fragment between the service type and the interpolated arguments. -/
def soapPart3 : Str := ("\">\n                ").toList

/-- Fragment between the arguments and the closing tag's action name. -/
def soapPart4 : Str := ("\n            </u:").toList

/-- Fragment after the closing tag's action name. -/
def soapPart5 : Str := (">\n        </s:Body>\n    </s:Envelope>").toList

/-- SOAP body f-string of source lines 49-56. -/
def soapBody (serviceType actionName args : Str) : Str :=
  soapPart1 ++ actionName ++ soapPart2 ++ serviceType ++ soapPart3 ++ args
    ++ soapPart4 ++ actionName ++ soapPart5

/-- Request built by perform_soap_request (source lines 48-64); the network
send and response are outside the model. -/
def performSoapRequest (controlURL serviceType actionName args : Str) : SoapRequest :=
  { controlURL, serviceType, actionName,
    soapAction := '\"' :: (serviceType ++ '#' :: actionName ++ ['\"']),
    contentType := ("text/xml; charset=utf-8").toList,
    body := soapBody serviceType actionName args }

/-- Per-action step of the orchestrator loop (source lines 145-149): an
action meeting the guard produces exactly one SOAP request, with the empty
string interpolated as its arguments; any other action produces none. -/
def invocationsFor (controlURL serviceType : Str) (a : ParsedAction) : List SoapRequest :=
  if eligible a then [performSoapRequest controlURL serviceType a.name []] else []

/-- Orchestrator loop over the parsed actions of one service (source lines
130-149), collecting the SOAP requests issued in order. -/
def processActions (controlURL serviceType : Str) : List ParsedAction → List SoapRequest
  | [] => []
  | a :: rest =>
    invocationsFor controlURL serviceType a ++ processActions controlURL serviceType rest

/-- Concrete control URL used in witnesses. -/
def exampleControlURL : Str := "http://192.168.1.1:5000/control".toList

/-- Concrete service type used in witnesses. -/
def exampleServiceType : Str := "urn:schemas-upnp-org:service:WANIPConnection:1".toList

/-- Concrete eligible action used in witnesses. -/
def exampleAction : ParsedAction :=
  ⟨"GetExternalIPAddress".toList, [⟨"NewExternalIPAddress".toList, "out".toList⟩]⟩

theorem classifyArguments_fst_nil (args : List ParsedArg) :
    (classifyArguments args).1 = [] ↔ ∀ g ∈ args, g.direction = "out".toList := by
  induction args with
  | nil => simp [classifyArguments]
  | cons g rest ih =>
    by_cases hg : g.direction = "out".toList
    · simp [classifyArguments, hg, ih]
    · simp only [classifyArguments, if_neg hg]
      constructor
      · intro hfalse
        exact absurd hfalse (List.cons_ne_nil _ _)
      · intro hall
        exact absurd (hall g (List.mem_cons_self g rest)) hg

theorem eligible_iff (a : ParsedAction) :
    eligible a = true ↔
      (pyStartsWith a.name ("Get".toList) = true ∧
        ∀ g ∈ a.args, g.direction = "out".toList) := by
  unfold eligible
  rw [Bool.and_eq_true]
  rw [beq_iff_eq, List.length_eq_zero, classifyArguments_fst_nil]

/-- C1 fails on the source: an action named GetStatus declaring a single
argument whose direction value is the unknown string "inout" declares zero
arguments with direction "in", hence is eligible by the claim, yet the
orchestrator issues no SOAP invocation for it, because the source
classifies every non-"out" direction as an input argument. -/
theorem invocation_iff_spec_eligibility_counterexample :
    specEligible ⟨"GetStatus".toList, [⟨"NewStatus".toList, "inout".toList⟩]⟩ = true ∧
    processActions exampleControlURL exampleServiceType
      [⟨"GetStatus".toList, [⟨"NewStatus".toList, "inout".toList⟩]⟩] = [] := by
  constructor
  · decide
  · decide

/-- C1 amended: the orchestrator invokes a parsed action via SOAP iff its
name starts with the literal "Get" and every declared argument has
direction exactly "out" — equivalently, zero arguments land in the
source's input bucket, which receives every direction other than "out". -/
theorem invocation_iff_all_arguments_out (controlURL serviceType : Str) (a : ParsedAction) :
    invocationsFor controlURL serviceType a ≠ [] ↔
      (pyStartsWith a.name ("Get".toList) = true ∧
        ∀ g ∈ a.args, g.direction = "out".toList) := by
  unfold invocationsFor
  by_cases h : eligible a
  · rw [if_pos h]
    simp only [ne_eq, List.cons_ne_nil, not_false_eq_true, true_iff]
    exact (eligible_iff a).mp h
  · rw [if_neg h]
    simp only [ne_eq, not_true_eq_false, false_iff]
    intro hr
    exact h ((eligible_iff a).mpr hr)

/-- C6 against the source: the argument-classification loop has no error
outcome in its type at all, and a direction value "inout" — neither "in"
nor "out" — is silently appended to the arguments_in list instead of being
reported as a parse error. -/
theorem unknown_direction_classified_as_in :
    classifyArguments [⟨"NewStatus".toList, "inout".toList⟩]
      = ([("NewStatus".toList)], []) := by decide

/-- C2: every action passing the source's invocation guard produces exactly
one SOAP request, whose SOAPAction header is serviceType#actionName in
double quotes, whose Content-Type header is text/xml; charset=utf-8, and
whose body is the SOAP 1.1 envelope containing a single element named
after the action, namespaced by the service type, with only whitespace —
no child argument elements — between its opening and closing tags. -/
theorem eligible_action_single_soap_invocation (controlURL serviceType : Str)
    (a : ParsedAction) (h : eligible a = true) :
    ∃ r, invocationsFor controlURL serviceType a = [r] ∧
      r.controlURL = controlURL ∧
      r.soapAction = '\"' :: (serviceType ++ '#' :: a.name ++ ['\"']) ∧
      r.contentType = ("text/xml; charset=utf-8").toList ∧
      ∃ inner,
        r.body = soapPart1 ++ a.name ++ soapPart2 ++ serviceType ++ ("\">".toList)
          ++ inner ++ ("</u:".toList) ++ a.name ++ soapPart5 ∧
        inner.all pyIsSpace = true := by
  refine ⟨performSoapRequest controlURL serviceType a.name [], ?_, rfl, rfl, rfl, ?_⟩
  · unfold invocationsFor
    rw [if_pos h]
  · refine ⟨("\n                ".toList) ++ ("\n            ".toList), ?_, by decide⟩
    show soapBody serviceType a.name [] = _
    unfold soapBody
    have h3 : soapPart3 = ("\">".toList) ++ ("\n                ".toList) := by decide
    have h4 : soapPart4 = ("\n            ".toList) ++ ("</u:".toList) := by decide
    rw [h3, h4]
    simp [List.append_assoc]

/-- Witness for C2 at the GetExternalIPAddress example action. -/
theorem eligible_action_single_soap_invocation_witness :
    ∃ r, invocationsFor exampleControlURL exampleServiceType exampleAction = [r] ∧
      r.controlURL = exampleControlURL ∧
      r.soapAction = '\"' :: (exampleServiceType ++ '#' :: exampleAction.name ++ ['\"']) ∧
      r.contentType = ("text/xml; charset=utf-8").toList ∧
      ∃ inner,
        r.body = soapPart1 ++ exampleAction.name ++ soapPart2 ++ exampleServiceType
          ++ ("\">".toList) ++ inner ++ ("</u:".toList) ++ exampleAction.name ++ soapPart5 ∧
        inner.all pyIsSpace = true :=
  eligible_action_single_soap_invocation exampleControlURL exampleServiceType
    exampleAction (by decide)

/-- XML element tree as consumed through xml.etree.ElementTree: a tag, the
element text (None when absent), and the child elements in document order.
Tags are taken as already namespace-resolved. -/
inductive Xml where
  | elem (tag : Str) (txt : Option Str) (children : List Xml)

/-- Tag of an element. -/
def tagOf : Xml → Str
  | .elem t _ _ => t

/-- Text of an element, None when it has none. -/
def textOf : Xml → Option Str
  | .elem _ x _ => x

/-- Child elements of an element. -/
def childrenOf : Xml → List Xml
  | .elem _ _ cs => cs

/-- ElementTree find(tag): the first direct child element carrying the tag,
or None. -/
def findChild (tag : Str) (x : Xml) : Option Xml :=
  (childrenOf x).find? (fun c => tagOf c == tag)

mutual

/-- Subelements of an element on all levels, in document order, as the
descendant axis of ElementTree ".//" paths enumerates them. -/
def descendants : Xml → List Xml
  | .elem _ _ cs => descendantsList cs

/-- Descendant enumeration over a child list. -/
def descendantsList : List Xml → List Xml
  | [] => []
  | c :: cs => c :: descendants c ++ descendantsList cs

end

/-- findall(".//serviceList/service") of source line 108: the
service-tagged children of every serviceList descendant, in document
order. -/
def findServices (root : Xml) : List Xml :=
  (((descendants root).filter (fun e => tagOf e == "serviceList".toList)).map
    (fun e => (childrenOf e).filter (fun c => tagOf c == "service".toList))).flatten

/-- Per-service record read on source lines 111-113; each field is the text
of the corresponding child element (None when the element carries no
text). -/
structure ServiceRecord where
  serviceType : Option Str
  controlURL : Option Str
  scpdURL : Option Str
  deriving DecidableEq, Repr

/-- Outcome of a straight-line parsing step; crash models an uncaught
Python AttributeError (None has no attribute text). -/
inductive ParseOutcome (α : Type) where
  | ok (val : α)
  | crash
  deriving DecidableEq, Repr

/-- Reading one service element (source lines 111-113): find each required
child and take its text; a missing child makes the attribute access on
None raise AttributeError, which no handler in the source catches. -/
def parseService (s : Xml) : ParseOutcome ServiceRecord :=
  match findChild ("serviceType".toList) s, findChild ("controlURL".toList) s,
      findChild ("SCPDURL".toList) s with
  | some e1, some e2, some e3 => .ok ⟨textOf e1, textOf e2, textOf e3⟩
  | _, _, _ => .crash

/-- Sequential traversal of the service elements, stopping at the first
crash, as the source loop does. -/
def parseServicesList : List Xml → ParseOutcome (List ServiceRecord)
  | [] => .ok []
  | s :: rest =>
    match parseService s with
    | .ok r =>
      match parseServicesList rest with
      | .ok rs => .ok (r :: rs)
      | .crash => .crash
    | .crash => .crash

/-- Parsing of the device-description service list (source lines 108-113). -/
def parseServices (root : Xml) : ParseOutcome (List ServiceRecord) :=
  parseServicesList (findServices root)

/-- A service element with all three required children present. -/
def wellFormedService (s : Xml) : Bool :=
  (findChild ("serviceType".toList) s).isSome
    && (findChild ("controlURL".toList) s).isSome
    && (findChild ("SCPDURL".toList) s).isSome

theorem parseService_of_wellFormed (s : Xml) (h : wellFormedService s = true) :
    ∃ e1 e2 e3,
      findChild ("serviceType".toList) s = some e1 ∧
      findChild ("controlURL".toList) s = some e2 ∧
      findChild ("SCPDURL".toList) s = some e3 ∧
      parseService s = .ok ⟨textOf e1, textOf e2, textOf e3⟩ := by
  unfold wellFormedService at h
  rw [Bool.and_eq_true, Bool.and_eq_true] at h
  obtain ⟨⟨h1, h2⟩, h3⟩ := h
  obtain ⟨e1, he1⟩ := Option.isSome_iff_exists.mp h1
  obtain ⟨e2, he2⟩ := Option.isSome_iff_exists.mp h2
  obtain ⟨e3, he3⟩ := Option.isSome_iff_exists.mp h3
  refine ⟨e1, e2, e3, he1, he2, he3, ?_⟩
  unfold parseService
  rw [he1, he2, he3]

theorem parseServicesList_ok (svcs : List Xml)
    (h : ∀ s ∈ svcs, wellFormedService s = true) :
    ∃ recs, parseServicesList svcs = .ok recs ∧ recs.length = svcs.length ∧
      ∀ i (hi : i < svcs.length) (hr : i < recs.length), ∃ e1 e2 e3,
        findChild ("serviceType".toList) (svcs.get ⟨i, hi⟩) = some e1 ∧
        findChild ("controlURL".toList) (svcs.get ⟨i, hi⟩) = some e2 ∧
        findChild ("SCPDURL".toList) (svcs.get ⟨i, hi⟩) = some e3 ∧
        recs.get ⟨i, hr⟩ = ⟨textOf e1, textOf e2, textOf e3⟩ := by
  induction svcs with
  | nil => exact ⟨[], rfl, rfl, fun i hi => absurd hi (Nat.not_lt_zero i)⟩
  | cons s rest ih =>
    obtain ⟨e1, e2, e3, he1, he2, he3, hps⟩ :=
      parseService_of_wellFormed s (h s (List.mem_cons_self s rest))
    obtain ⟨recs, hok, hlen, hidx⟩ := ih (fun x hx => h x (List.mem_cons_of_mem s hx))
    refine ⟨⟨textOf e1, textOf e2, textOf e3⟩ :: recs, ?_, ?_, ?_⟩
    · unfold parseServicesList
      rw [hps, hok]
    · simp [hlen]
    · intro i hi hr
      cases i with
      | zero => exact ⟨e1, e2, e3, he1, he2, he3, rfl⟩
      | succ n =>
        have hn : n < rest.length := Nat.lt_of_succ_lt_succ hi
        have hnr : n < recs.length := Nat.lt_of_succ_lt_succ hr
        obtain ⟨f1, f2, f3, hf1, hf2, hf3, hrec⟩ := hidx n hn hnr
        exact ⟨f1, f2, f3, hf1, hf2, hf3, hrec⟩

/-- C8: a device description whose serviceList elements hold N service
elements each carrying serviceType, controlURL and SCPDURL children parses
to exactly N service records, in document order, whose fields are the
corresponding child element texts verbatim. -/
theorem wellformed_services_parse_verbatim (root : Xml)
    (h : ∀ s ∈ findServices root, wellFormedService s = true) :
    ∃ recs, parseServices root = .ok recs ∧
      recs.length = (findServices root).length ∧
      ∀ i (hi : i < (findServices root).length) (hr : i < recs.length), ∃ e1 e2 e3,
        findChild ("serviceType".toList) ((findServices root).get ⟨i, hi⟩) = some e1 ∧
        findChild ("controlURL".toList) ((findServices root).get ⟨i, hi⟩) = some e2 ∧
        findChild ("SCPDURL".toList) ((findServices root).get ⟨i, hi⟩) = some e3 ∧
        recs.get ⟨i, hr⟩ = ⟨textOf e1, textOf e2, textOf e3⟩ :=
  parseServicesList_ok (findServices root) h

/-- Concrete well-formed device description with two services. -/
def exampleDeviceDescription : Xml :=
  .elem ("root".toList) none
    [.elem ("device".toList) none
      [.elem ("serviceList".toList) none
        [.elem ("service".toList) none
          [.elem ("serviceType".toList) (some exampleServiceType) [],
           .elem ("controlURL".toList) (some ("/control".toList)) [],
           .elem ("SCPDURL".toList) (some ("/scpd.xml".toList)) []],
         .elem ("service".toList) none
          [.elem ("serviceType".toList)
             (some ("urn:schemas-upnp-org:service:Layer3Forwarding:1".toList)) [],
           .elem ("controlURL".toList) (some ("/l3f".toList)) [],
           .elem ("SCPDURL".toList) (some ("/l3f.xml".toList)) []]]]]

/-- Witness for C8 at the two-service device description. -/
theorem wellformed_services_parse_verbatim_witness :
    ∃ recs, parseServices exampleDeviceDescription = .ok recs ∧
      recs.length = (findServices exampleDeviceDescription).length ∧
      ∀ i (hi : i < (findServices exampleDeviceDescription).length)
        (hr : i < recs.length), ∃ e1 e2 e3,
        findChild ("serviceType".toList)
          ((findServices exampleDeviceDescription).get ⟨i, hi⟩) = some e1 ∧
        findChild ("controlURL".toList)
          ((findServices exampleDeviceDescription).get ⟨i, hi⟩) = some e2 ∧
        findChild ("SCPDURL".toList)
          ((findServices exampleDeviceDescription).get ⟨i, hi⟩) = some e3 ∧
        recs.get ⟨i, hr⟩ = ⟨textOf e1, textOf e2, textOf e3⟩ :=
  wellformed_services_parse_verbatim exampleDeviceDescription (by decide)

/-- Concrete device description whose single service lacks controlURL. -/
def incompleteDeviceDescription : Xml :=
  .elem ("root".toList) none
    [.elem ("device".toList) none
      [.elem ("serviceList".toList) none
        [.elem ("service".toList) none
          [.elem ("serviceType".toList) (some exampleServiceType) [],
           .elem ("SCPDURL".toList) (some ("/scpd.xml".toList)) []]]]]

/-- C5 against the source: a device description whose single service lacks
the controlURL child makes parsing crash with an uncaught AttributeError
rather than produce a reported IncompleteService failure; no partial
record is produced either, the whole parse is the crash outcome. -/
theorem incomplete_service_crashes :
    parseServices incompleteDeviceDescription = .crash := by decide

/-- Python location.rsplit("/", 1)[0]: everything before the last slash,
or the whole string when none occurs (source lines 119-120). -/
def rsplitBase (loc : Str) : Str :=
  match splitFirst '/' loc.reverse with
  | none => loc
  | some (_, b) => b.reverse

/-- Outcome of fetching and parsing one service's SCPD document, an input
to the orchestrator model: the parsed actions on success, or the two
failures the source can raise there (raise_for_status on source line 122,
ET.fromstring on line 125). -/
inductive ScpdFetch where
  | ok (actions : List ParsedAction)
  | httpError
  | xmlParseError
  deriving DecidableEq, Repr

/-- One service as the orchestrator loop consumes it: its record fields and
the environment's answer for its SCPD fetch. -/
structure ServiceRun where
  serviceType : Str
  controlPath : Str
  scpdPath : Str
  scpdFetch : ScpdFetch
  deriving DecidableEq, Repr

/-- How a run of the service loop ends: normally, or in one of the two
except clauses of source lines 151-154, which sit outside the loop and
therefore terminate it. -/
inductive RunEnd where
  | finished
  | abortedHttp
  | abortedParse
  deriving DecidableEq, Repr

/-- Service loop of source lines 110-149 under the single try block of
lines 79-154: each service's SCPD outcome either yields that service's
SOAP requests or raises, and a raise aborts the whole loop, skipping every
remaining service. -/
def processServices (location : Str) : List ServiceRun → List SoapRequest × RunEnd
  | [] => ([], .finished)
  | svc :: rest =>
    match svc.scpdFetch with
    | .ok acts =>
      match processServices location rest with
      | (more, e) =>
        (processActions (rsplitBase location ++ svc.controlPath) svc.serviceType acts
          ++ more, e)
    | .httpError => ([], .abortedHttp)
    | .xmlParseError => ([], .abortedParse)

/-- Concrete device-description location used in the run model. -/
def exampleLocation : Str := "http://192.168.1.1:5000/desc.xml".toList

/-- Service whose SCPD fetch raises an HTTP error. -/
def failingService : ServiceRun :=
  ⟨"urn:schemas-upnp-org:service:Layer3Forwarding:1".toList,
    "/l3f".toList, "/l3f.xml".toList, .httpError⟩

/-- Service whose SCPD declares the eligible GetExternalIPAddress action. -/
def healthyService : ServiceRun :=
  ⟨exampleServiceType, "/control".toList, "/scpd.xml".toList, .ok [exampleAction]⟩

/-- C4 fails on the source: with two services where the first one's SCPD
fetch raises an HTTP error, the run aborts inside the single try block, so
the second service — whose SCPD declares an eligible action — is never
processed and no SOAP request at all is issued; processed alone, that
second service yields exactly one invocation and a normal finish. -/
theorem scpd_failure_aborts_whole_run :
    processServices exampleLocation [failingService, healthyService] = ([], .abortedHttp) ∧
    (processServices exampleLocation [healthyService]).1.length = 1 ∧
    (processServices exampleLocation [healthyService]).2 = .finished := by
  refine ⟨?_, ?_, ?_⟩ <;> decide

/-- Socket operations performed by send_udp_request, as an event trace. -/
inductive UdpEvent where
  | socketOpen
  | setTimeoutTo5
  | sendTo
  | recvFrom
  | socketClose
  deriving DecidableEq, Repr

/-- Environment's answer to the blocking receive: a reply, the timeout
exception, or another socket exception. -/
inductive RecvOutcome where
  | success (response : Str)
  | timeoutExc
  | socketExc
  deriving DecidableEq, Repr

/-- How the try body of source lines 30-35 ends. -/
inductive TryEnd where
  | returned (response : Str)
  | raisedTimeout
  | raisedOther
  deriving DecidableEq, Repr

/-- Try body of send_udp_request (source lines 30-35): open the socket,
set the 5-second timeout, send the datagram, then block on recvfrom,
whose outcome decides how the body ends. -/
def udpTryBody (oc : RecvOutcome) : List UdpEvent × TryEnd :=
  match oc with
  | .success r => ([.socketOpen, .setTimeoutTo5, .sendTo, .recvFrom], .returned r)
  | .timeoutExc => ([.socketOpen, .setTimeoutTo5, .sendTo, .recvFrom], .raisedTimeout)
  | .socketExc => ([.socketOpen, .setTimeoutTo5, .sendTo, .recvFrom], .raisedOther)

/-- send_udp_request (source lines 29-42): the two except clauses turn the
exceptions into a None result, and the finally clause closes the socket on
every path before the function returns. -/
def sendUdpRequest (oc : RecvOutcome) : List UdpEvent × Option Str :=
  match udpTryBody oc with
  | (evs, .returned r) => (evs ++ [.socketClose], some r)
  | (evs, .raisedTimeout) => (evs ++ [.socketClose], none)
  | (evs, .raisedOther) => (evs ++ [.socketClose], none)

/-- C9: on each of the three exit paths of the UDP exchange — successful
receive, receive timeout, and socket error — the operation trace performs
the socket close exactly once, as its final operation. -/
theorem udp_socket_closed_on_all_paths (oc : RecvOutcome) :
    ((sendUdpRequest oc).1).count .socketClose = 1 ∧
    ((sendUdpRequest oc).1).getLast? = some .socketClose := by
  cases oc <;> exact ⟨rfl, rfl⟩

/-- C3 as stated fails on the source: in a reply whose location line
separates the header name from the URL with a tab — a whitespace
character — extraction does not return the URL; the split on the space
character finds none and the index access raises IndexError. -/
theorem location_extraction_whitespace_counterexample :
    extractLocation ("LOCATION:\thttp://192.168.1.1/desc.xml".toList)
        ≠ .found ("http://192.168.1.1/desc.xml".toList) ∧
    extractLocation ("LOCATION:\thttp://192.168.1.1/desc.xml".toList) = .indexError := by
  constructor <;> decide

/-- C10: a discovery reply whose first case-insensitive location line
separates name and value with a tab instead of a space makes the
extraction step fail with the out-of-range (IndexError) outcome, rather
than return a location or report a missing header. -/
theorem spaceless_location_line_crashes :
    extractLocation ("HTTP/1.1 200 OK\r\nLOCATION:\thttp://192.168.1.1:5000/desc.xml\r\n\r\n".toList)
      = .indexError := by decide

end UpnpQuery
